import Mathlib

/-!
Verification of the envelope-resolution layer of the MCP schema crate
(protocol revision 2025_03_26, file generated_schema/2025_03_26/schema_utils.rs,
together with the constant-field validator in generated_schema/draft/validators.rs).

JSON values are modelled by the inductive type Json below; serde_json map
access, the message-kind classifier, the known/custom payload resolvers, the
envelope (de)serializers and the error taxonomy are translated function by
function from the Rust source.  The closed Payload Vocabulary
(generated_schema/2025_03_26/mcp_schema.rs) is not part of the source tree;
where a definition depends on it, the definition is modelled from the spec and
its doc comment says so.
-/

namespace McpSchema

/-- Shallow embedding of serde_json Value.  Numbers are modelled as integers
(no claim depends on float payloads); objects are ordered association lists,
which is how serde_json presents map entries to a visitor. -/
inductive Json where
  | null : Json
  | bool : Bool → Json
  | num : Int → Json
  | str : String → Json
  | arr : List Json → Json
  | obj : List (String × Json) → Json

/-- serde_json Value::get with a string key: field lookup on objects,
none on every other value. -/
def Json.get (v : Json) (key : String) : Option Json :=
  match v with
  | Json.obj fields => fields.lookup key
  | _ => none

/-- serde_json Value::as_str. -/
def Json.asStr : Json → Option String
  | Json.str s => some s
  | _ => none

/-- True exactly on JSON objects. -/
def Json.isObj : Json → Bool
  | Json.obj _ => true
  | _ => false

/-- The MessageTypes enum of schema_utils.rs. -/
inductive MessageTypes where
  | Request : MessageTypes
  | Response : MessageTypes
  | Notification : MessageTypes
  | Error : MessageTypes
deriving DecidableEq, Repr

/-- Display impl for MessageTypes. -/
def MessageTypes.display : MessageTypes → String
  | MessageTypes.Request => "Request"
  | MessageTypes.Response => "Response"
  | MessageTypes.Notification => "Notification"
  | MessageTypes.Error => "Error"

/-- detect_message_type from schema_utils.rs, translated branch by branch
(early return for Error, then the nested id/method/result decision). -/
def detect_message_type (value : Json) : MessageTypes :=
  let idField := value.get ("id")
  if idField.isSome && (value.get ("error")).isSome then
    MessageTypes.Error
  else
    let methodField := value.get ("method")
    let resultField := value.get ("result")
    if idField.isSome then
      if resultField.isSome && methodField.isNone then
        MessageTypes.Response
      else if methodField.isSome then
        MessageTypes.Request
      else
        MessageTypes.Request
    else if methodField.isSome then
      MessageTypes.Notification
    else
      MessageTypes.Request

/-- The classifier contract as the spec words it (section 4.1): a strict
precedence list ending in a Request default.  Stated separately from
detect_message_type so that the two can be compared. -/
def classifySpec (v : Json) : MessageTypes :=
  if (v.get ("id")).isSome && (v.get ("error")).isSome then
    MessageTypes.Error
  else if (v.get ("id")).isSome && (v.get ("result")).isSome && (v.get ("method")).isNone then
    MessageTypes.Response
  else if (v.get ("id")).isSome && (v.get ("method")).isSome then
    MessageTypes.Request
  else if (v.get ("id")).isNone && (v.get ("method")).isSome then
    MessageTypes.Notification
  else
    MessageTypes.Request

/-- C2: detect_message_type is total (a Lean function) and agrees with the
spec truth table on every JSON value: Error when id and error are both
present; else Response when id and result are present without method; else
Request when id and method are present; Notification when method is present
without id; Request in every remaining case. -/
theorem detect_message_type_matches_spec :
    ∀ v : Json, detect_message_type v = classifySpec v := by
  intro v
  simp only [detect_message_type, classifySpec]
  cases hid : v.get ("id") <;>
    cases herr : v.get ("error") <;>
      cases hm : v.get ("method") <;>
        cases hr : v.get ("result") <;>
          simp [hid, herr, hm, hr]

/-- const_str_validator from generated_schema/draft/validators.rs: deserialize
the field as a string and require it to equal the expected constant, otherwise
fail with a message naming struct, field, expected and actual values. -/
def constMismatchMessage (struct_name field_name expected value : String) : String :=
  "Expected field `" ++ field_name ++ "` in struct `" ++ struct_name ++
    "` as const value \x27" ++ expected ++ "\x27, but got \x27" ++ value ++ "\x27"

/-- const_str_validator from generated_schema/draft/validators.rs, on an
already-parsed JSON value: a non-string fails serde String deserialization,
a string must match the expected constant. -/
def const_str_validator (struct_name field_name expected : String) (raw : Json) :
    Except String String :=
  match raw.asStr with
  | none => Except.error ("invalid type: expected a string")
  | some value =>
      if value = expected then Except.ok value
      else Except.error (constMismatchMessage struct_name field_name expected value)

/-- Modelled from the spec: the Payload Vocabulary
(generated_schema/2025_03_26/mcp_schema.rs is not in the source tree).  The
spec treats the vocabulary as an ordered list of (fixed method name, shape)
tuples per role and direction; the detailed JSON Schema of each shape is an
explicit non-goal, so a shape is identified by its struct name and fixed
method string.  Struct names and method constants are taken from the
validator table in generated_schema/draft/validators.rs. -/
def clientRequestVocabulary : List (String × String) :=
  [("InitializeRequest", "initialize"),
   ("PingRequest", "ping"),
   ("ListResourcesRequest", "resources/list"),
   ("ListResourceTemplatesRequest", "resources/templates/list"),
   ("ReadResourceRequest", "resources/read"),
   ("SubscribeRequest", "resources/subscribe"),
   ("UnsubscribeRequest", "resources/unsubscribe"),
   ("ListPromptsRequest", "prompts/list"),
   ("GetPromptRequest", "prompts/get"),
   ("ListToolsRequest", "tools/list"),
   ("CallToolRequest", "tools/call"),
   ("SetLevelRequest", "logging/setLevel"),
   ("CompleteRequest", "completion/complete")]

/-- Modelled from the spec: client-side notification vocabulary, in the
declaration order of the ClientNotification enum. -/
def clientNotificationVocabulary : List (String × String) :=
  [("CancelledNotification", "notifications/cancelled"),
   ("InitializedNotification", "notifications/initialized"),
   ("ProgressNotification", "notifications/progress"),
   ("RootsListChangedNotification", "notifications/roots/list_changed")]

/-- Modelled from the spec: server-side request vocabulary, in the
declaration order of the ServerRequest enum. -/
def serverRequestVocabulary : List (String × String) :=
  [("PingRequest", "ping"),
   ("CreateMessageRequest", "sampling/createMessage"),
   ("ListRootsRequest", "roots/list")]

/-- Modelled from the spec: server-side notification vocabulary, in the
declaration order of the ServerNotification enum. -/
def serverNotificationVocabulary : List (String × String) :=
  [("CancelledNotification", "notifications/cancelled"),
   ("ProgressNotification", "notifications/progress"),
   ("ResourceListChangedNotification", "notifications/resources/list_changed"),
   ("ResourceUpdatedNotification", "notifications/resources/updated"),
   ("PromptListChangedNotification", "notifications/prompts/list_changed"),
   ("ToolListChangedNotification", "notifications/tools/list_changed"),
   ("LoggingMessageNotification", "notifications/message")]

/-- Modelled from the spec: a resolved closed vocabulary shape for requests
and notifications — its fixed method string plus its params value (Json.null
when the optional params field is absent).  The per-field JSON Schema of the
params is outside the spec and is carried opaquely. -/
structure MethodPayload where
  method : String
  params : Json

/-- Modelled from the spec: deserialization of one closed vocabulary shape.
The shape requires an object with its fixed method constant; the jsonrpc
constant marker is validated by const_str_validator when the field is
present (the generated structs default it when absent — the envelope
deserializers feed the vocabulary objects without a jsonrpc field and known
shapes must still win); params defaults to null when absent. -/
def deserializeShape (struct_name fixedMethod : String) (raw : Json) :
    Except String MethodPayload :=
  if raw.isObj = false then
    Except.error ("invalid type: expected an object")
  else
    match raw.get ("method") with
    | none => Except.error ("missing field `method`")
    | some m =>
        match const_str_validator struct_name ("method") fixedMethod m with
        | Except.error e => Except.error e
        | Except.ok _ =>
            match raw.get ("jsonrpc") with
            | none => Except.ok ⟨fixedMethod, (raw.get ("params")).getD Json.null⟩
            | some j =>
                match const_str_validator struct_name ("jsonrpc") ("2.0") j with
                | Except.error e => Except.error e
                | Except.ok _ => Except.ok ⟨fixedMethod, (raw.get ("params")).getD Json.null⟩

/-- Modelled from the spec: untagged resolution over an ordered vocabulary —
try each candidate shape in declaration order, first success wins, exhaustion
is an error (which the enclosing resolver turns into the Custom fallback). -/
def resolveVocabulary (vocab : List (String × String)) (raw : Json) :
    Except String MethodPayload :=
  match vocab with
  | [] => Except.error ("data did not match any variant")
  | (s, m) :: rest =>
      match deserializeShape s m raw with
      | Except.ok p => Except.ok p
      | Except.error _ => resolveVocabulary rest raw

/-- Modelled from the spec: the ClientRequest closed enum; a value is a
resolved shape from the client request vocabulary. -/
abbrev ClientRequest := MethodPayload

/-- Modelled from the spec: ClientRequest deserialization (untagged over the
client request vocabulary). -/
def ClientRequest.deserialize (raw : Json) : Except String ClientRequest :=
  resolveVocabulary clientRequestVocabulary raw

/-- Modelled from the spec: the ClientNotification closed enum. -/
abbrev ClientNotification := MethodPayload

/-- Modelled from the spec: ClientNotification deserialization. -/
def ClientNotification.deserialize (raw : Json) : Except String ClientNotification :=
  resolveVocabulary clientNotificationVocabulary raw

/-- Modelled from the spec: the ServerRequest closed enum. -/
abbrev ServerRequest := MethodPayload

/-- Modelled from the spec: ServerRequest deserialization. -/
def ServerRequest.deserialize (raw : Json) : Except String ServerRequest :=
  resolveVocabulary serverRequestVocabulary raw

/-- Modelled from the spec: the ServerNotification closed enum. -/
abbrev ServerNotification := MethodPayload

/-- Modelled from the spec: ServerNotification deserialization. -/
def ServerNotification.deserialize (raw : Json) : Except String ServerNotification :=
  resolveVocabulary serverNotificationVocabulary raw

/-- Modelled from the spec: the ClientResult closed enum.  Its generic Result
variant captures arbitrary extra attributes of a JSON object (the source marks
the Custom fallback for results as deprecated for exactly this reason), so the
result vocabulary accepts every JSON object, carried opaquely. -/
structure ClientResult where
  value : Json

/-- Modelled from the spec: ClientResult deserialization — any JSON object
validates (via the generic Result shape); anything else fails. -/
def ClientResult.deserialize (raw : Json) : Except String ClientResult :=
  if raw.isObj then Except.ok ⟨raw⟩
  else Except.error ("invalid type: expected an object")

/-- Modelled from the spec: the ServerResult closed enum, as for ClientResult. -/
structure ServerResult where
  value : Json

/-- Modelled from the spec: ServerResult deserialization. -/
def ServerResult.deserialize (raw : Json) : Except String ServerResult :=
  if raw.isObj then Except.ok ⟨raw⟩
  else Except.error ("invalid type: expected an object")

/-- RequestFromClient from schema_utils.rs: known client request or opaque
custom value. -/
inductive RequestFromClient where
  | ClientRequest : ClientRequest → RequestFromClient
  | CustomRequest : Json → RequestFromClient

/-- The Deserialize impl for RequestFromClient in schema_utils.rs: take the
raw value, try the closed ClientRequest enum, fall back to CustomRequest
holding the raw value on any error. -/
def RequestFromClient.deserialize (raw : Json) : Except String RequestFromClient :=
  match ClientRequest.deserialize raw with
  | Except.ok r => Except.ok (RequestFromClient.ClientRequest r)
  | Except.error _ => Except.ok (RequestFromClient.CustomRequest raw)

/-- NotificationFromClient from schema_utils.rs. -/
inductive NotificationFromClient where
  | ClientNotification : ClientNotification → NotificationFromClient
  | CustomNotification : Json → NotificationFromClient

/-- The Deserialize impl for NotificationFromClient in schema_utils.rs. -/
def NotificationFromClient.deserialize (raw : Json) : Except String NotificationFromClient :=
  match ClientNotification.deserialize raw with
  | Except.ok r => Except.ok (NotificationFromClient.ClientNotification r)
  | Except.error _ => Except.ok (NotificationFromClient.CustomNotification raw)

/-- ResultFromClient from schema_utils.rs. -/
inductive ResultFromClient where
  | ClientResult : ClientResult → ResultFromClient
  | CustomResult : Json → ResultFromClient

/-- The Deserialize impl for ResultFromClient in schema_utils.rs. -/
def ResultFromClient.deserialize (raw : Json) : Except String ResultFromClient :=
  match ClientResult.deserialize raw with
  | Except.ok r => Except.ok (ResultFromClient.ClientResult r)
  | Except.error _ => Except.ok (ResultFromClient.CustomResult raw)

/-- RequestFromServer from schema_utils.rs. -/
inductive RequestFromServer where
  | ServerRequest : ServerRequest → RequestFromServer
  | CustomRequest : Json → RequestFromServer

/-- The Deserialize impl for RequestFromServer in schema_utils.rs. -/
def RequestFromServer.deserialize (raw : Json) : Except String RequestFromServer :=
  match ServerRequest.deserialize raw with
  | Except.ok r => Except.ok (RequestFromServer.ServerRequest r)
  | Except.error _ => Except.ok (RequestFromServer.CustomRequest raw)

/-- NotificationFromServer from schema_utils.rs. -/
inductive NotificationFromServer where
  | ServerNotification : ServerNotification → NotificationFromServer
  | CustomNotification : Json → NotificationFromServer

/-- The Deserialize impl for NotificationFromServer in schema_utils.rs. -/
def NotificationFromServer.deserialize (raw : Json) : Except String NotificationFromServer :=
  match ServerNotification.deserialize raw with
  | Except.ok r => Except.ok (NotificationFromServer.ServerNotification r)
  | Except.error _ => Except.ok (NotificationFromServer.CustomNotification raw)

/-- ResultFromServer from schema_utils.rs. -/
inductive ResultFromServer where
  | ServerResult : ServerResult → ResultFromServer
  | CustomResult : Json → ResultFromServer

/-- The Deserialize impl for ResultFromServer in schema_utils.rs. -/
def ResultFromServer.deserialize (raw : Json) : Except String ResultFromServer :=
  match ServerResult.deserialize raw with
  | Except.ok r => Except.ok (ResultFromServer.ServerResult r)
  | Except.error _ => Except.ok (ResultFromServer.CustomResult raw)

/-- C1: each of the six payload resolvers returns the Known variant exactly
when deserialization into its closed vocabulary enum succeeds, otherwise the
Custom variant holding the raw JSON unchanged; a candidate mismatch is never
surfaced as an error (the resolver always succeeds). -/
theorem resolvers_known_iff_vocabulary_else_custom :
    ∀ v : Json,
      ((∀ r, RequestFromClient.deserialize v = Except.ok (RequestFromClient.ClientRequest r) ↔
          ClientRequest.deserialize v = Except.ok r)
        ∧ ((ClientRequest.deserialize v).isOk = false ↔
            RequestFromClient.deserialize v = Except.ok (RequestFromClient.CustomRequest v))
        ∧ ∃ x, RequestFromClient.deserialize v = Except.ok x)
      ∧ ((∀ r, NotificationFromClient.deserialize v =
              Except.ok (NotificationFromClient.ClientNotification r) ↔
          ClientNotification.deserialize v = Except.ok r)
        ∧ ((ClientNotification.deserialize v).isOk = false ↔
            NotificationFromClient.deserialize v =
              Except.ok (NotificationFromClient.CustomNotification v))
        ∧ ∃ x, NotificationFromClient.deserialize v = Except.ok x)
      ∧ ((∀ r, ResultFromClient.deserialize v = Except.ok (ResultFromClient.ClientResult r) ↔
          ClientResult.deserialize v = Except.ok r)
        ∧ ((ClientResult.deserialize v).isOk = false ↔
            ResultFromClient.deserialize v = Except.ok (ResultFromClient.CustomResult v))
        ∧ ∃ x, ResultFromClient.deserialize v = Except.ok x)
      ∧ ((∀ r, RequestFromServer.deserialize v = Except.ok (RequestFromServer.ServerRequest r) ↔
          ServerRequest.deserialize v = Except.ok r)
        ∧ ((ServerRequest.deserialize v).isOk = false ↔
            RequestFromServer.deserialize v = Except.ok (RequestFromServer.CustomRequest v))
        ∧ ∃ x, RequestFromServer.deserialize v = Except.ok x)
      ∧ ((∀ r, NotificationFromServer.deserialize v =
              Except.ok (NotificationFromServer.ServerNotification r) ↔
          ServerNotification.deserialize v = Except.ok r)
        ∧ ((ServerNotification.deserialize v).isOk = false ↔
            NotificationFromServer.deserialize v =
              Except.ok (NotificationFromServer.CustomNotification v))
        ∧ ∃ x, NotificationFromServer.deserialize v = Except.ok x)
      ∧ ((∀ r, ResultFromServer.deserialize v = Except.ok (ResultFromServer.ServerResult r) ↔
          ServerResult.deserialize v = Except.ok r)
        ∧ ((ServerResult.deserialize v).isOk = false ↔
            ResultFromServer.deserialize v = Except.ok (ResultFromServer.CustomResult v))
        ∧ ∃ x, ResultFromServer.deserialize v = Except.ok x) := by
  intro v
  refine ⟨?_, ?_, ?_, ?_, ?_, ?_⟩
  · cases h : ClientRequest.deserialize v <;>
      simp [RequestFromClient.deserialize, h, Except.isOk, Except.toBool]
  · cases h : ClientNotification.deserialize v <;>
      simp [NotificationFromClient.deserialize, h, Except.isOk, Except.toBool]
  · cases h : ClientResult.deserialize v <;>
      simp [ResultFromClient.deserialize, h, Except.isOk, Except.toBool]
  · cases h : ServerRequest.deserialize v <;>
      simp [RequestFromServer.deserialize, h, Except.isOk, Except.toBool]
  · cases h : ServerNotification.deserialize v <;>
      simp [NotificationFromServer.deserialize, h, Except.isOk, Except.toBool]
  · cases h : ServerResult.deserialize v <;>
      simp [ResultFromServer.deserialize, h, Except.isOk, Except.toBool]

/-- C5 counterexample: a raw input that is not a JSON object — the number 42 —
makes payload resolution succeed with the Custom variant rather than fail with
a Parse-kind error, contradicting the claim. -/
theorem resolver_nonobject_counterexample :
    Json.isObj (Json.num 42) = false ∧
      RequestFromClient.deserialize (Json.num 42) =
        Except.ok (RequestFromClient.CustomRequest (Json.num 42)) :=
  ⟨rfl, rfl⟩

/-- No candidate of an ordered vocabulary matches a non-object raw value, so
untagged resolution over the vocabulary fails (feeding the Custom fallback). -/
theorem resolveVocabulary_nonobject (vocab : List (String × String)) (v : Json)
    (h : v.isObj = false) :
    resolveVocabulary vocab v = Except.error ("data did not match any variant") := by
  induction vocab with
  | nil => rfl
  | cons head rest ih =>
      obtain ⟨s, m⟩ := head
      simp [resolveVocabulary, deserializeShape, h, ih]

/-- C5 amended: a raw input that is not a JSON object never matches the
vocabulary, and every one of the six payload resolvers succeeds with the
Custom variant holding the input unchanged (no error is propagated; a
Parse-kind error can only arise earlier, when the input text is not valid
JSON at all). -/
theorem resolvers_nonobject_custom (v : Json) (h : v.isObj = false) :
    RequestFromClient.deserialize v = Except.ok (RequestFromClient.CustomRequest v)
    ∧ NotificationFromClient.deserialize v =
        Except.ok (NotificationFromClient.CustomNotification v)
    ∧ ResultFromClient.deserialize v = Except.ok (ResultFromClient.CustomResult v)
    ∧ RequestFromServer.deserialize v = Except.ok (RequestFromServer.CustomRequest v)
    ∧ NotificationFromServer.deserialize v =
        Except.ok (NotificationFromServer.CustomNotification v)
    ∧ ResultFromServer.deserialize v = Except.ok (ResultFromServer.CustomResult v) := by
  refine ⟨?_, ?_, ?_, ?_, ?_, ?_⟩ <;>
    simp [RequestFromClient.deserialize, NotificationFromClient.deserialize,
      ResultFromClient.deserialize, RequestFromServer.deserialize,
      NotificationFromServer.deserialize, ResultFromServer.deserialize,
      ClientRequest.deserialize, ClientNotification.deserialize,
      ClientResult.deserialize, ServerRequest.deserialize,
      ServerNotification.deserialize, ServerResult.deserialize,
      resolveVocabulary_nonobject _ _ h, h]

/-- Witness for resolvers_nonobject_custom at the concrete non-object input
given by the string x. -/
theorem resolvers_nonobject_custom_witness :
    RequestFromClient.deserialize (Json.str ("x")) =
      Except.ok (RequestFromClient.CustomRequest (Json.str ("x")))
    ∧ NotificationFromClient.deserialize (Json.str ("x")) =
        Except.ok (NotificationFromClient.CustomNotification (Json.str ("x")))
    ∧ ResultFromClient.deserialize (Json.str ("x")) =
        Except.ok (ResultFromClient.CustomResult (Json.str ("x")))
    ∧ RequestFromServer.deserialize (Json.str ("x")) =
        Except.ok (RequestFromServer.CustomRequest (Json.str ("x")))
    ∧ NotificationFromServer.deserialize (Json.str ("x")) =
        Except.ok (NotificationFromServer.CustomNotification (Json.str ("x")))
    ∧ ResultFromServer.deserialize (Json.str ("x")) =
        Except.ok (ResultFromServer.CustomResult (Json.str ("x"))) :=
  resolvers_nonobject_custom (Json.str ("x")) rfl

/-- RequestId from the schema: a string or an integer correlation id. -/
inductive RequestId where
  | string : String → RequestId
  | integer : Int → RequestId
deriving DecidableEq, Repr

/-- The JSONRPC_VERSION constant: the protocol marker is always the literal
2.0 string. -/
def JSONRPC_VERSION : String := "2.0"

/-- RpcError: code, optional data, message (the single error value shape of
the taxonomy). -/
structure RpcError where
  code : Int
  data : Option Json
  message : String

/-- RpcError::internal_error from schema_utils.rs. -/
def RpcError.internal_error : RpcError := ⟨-32603, none, "Internal error"⟩

/-- RpcError::parse_error from schema_utils.rs. -/
def RpcError.parse_error : RpcError := ⟨-32700, none, "Parse error"⟩

/-- RpcError::method_not_found from schema_utils.rs. -/
def RpcError.method_not_found : RpcError := ⟨-32601, none, "Method not found"⟩

/-- RpcError::invalid_params from schema_utils.rs. -/
def RpcError.invalid_params : RpcError := ⟨-32602, none, "Invalid params"⟩

/-- RpcError::invalid_request from schema_utils.rs. -/
def RpcError.invalid_request : RpcError := ⟨-32600, none, "Invalid request"⟩

/-- RpcError::with_message from schema_utils.rs: override the message. -/
def RpcError.with_message (e : RpcError) (message : String) : RpcError :=
  { e with message := message }

/-- RpcError::with_data from schema_utils.rs: override the data. -/
def RpcError.with_data (e : RpcError) (data : Option Json) : RpcError :=
  { e with data := data }

/-- JsonrpcError: the error envelope (error object, id, jsonrpc marker). -/
structure JsonrpcError where
  error : RpcError
  id : RequestId
  jsonrpc : String

/-- JsonrpcError::new: attach an id and fix the jsonrpc marker. -/
def JsonrpcError.new (error : RpcError) (id : RequestId) : JsonrpcError :=
  ⟨error, id, JSONRPC_VERSION⟩

/-- RequestFromClient::method from schema_utils.rs.  The Custom arm indexes
the raw value with the method key and unwraps as_str; the unwrap panics when
the key is absent or not a string, which the embedding renders as none. -/
def RequestFromClient.method : RequestFromClient → Option String
  | RequestFromClient.ClientRequest r => some r.method
  | RequestFromClient.CustomRequest v => (v.get ("method")).bind Json.asStr

/-- NotificationFromClient::method from schema_utils.rs (same panic pattern
on the Custom arm, rendered as none). -/
def NotificationFromClient.method : NotificationFromClient → Option String
  | NotificationFromClient.ClientNotification n => some n.method
  | NotificationFromClient.CustomNotification v => (v.get ("method")).bind Json.asStr

/-- RequestFromServer::method from schema_utils.rs (same panic pattern). -/
def RequestFromServer.method : RequestFromServer → Option String
  | RequestFromServer.ServerRequest r => some r.method
  | RequestFromServer.CustomRequest v => (v.get ("method")).bind Json.asStr

/-- NotificationFromServer::method from schema_utils.rs (same panic pattern). -/
def NotificationFromServer.method : NotificationFromServer → Option String
  | NotificationFromServer.ServerNotification n => some n.method
  | NotificationFromServer.CustomNotification v => (v.get ("method")).bind Json.asStr

/-- The ClientJsonrpcRequest envelope of schema_utils.rs. -/
structure ClientJsonrpcRequest where
  id : RequestId
  jsonrpc : String
  method : String
  request : RequestFromClient

/-- ClientJsonrpcRequest::new: reads the payload method (panicking — none —
when the custom payload has no string method) and fixes jsonrpc to 2.0. -/
def ClientJsonrpcRequest.new (id : RequestId) (request : RequestFromClient) :
    Option ClientJsonrpcRequest :=
  (request.method).map (fun m => ⟨id, JSONRPC_VERSION, m, request⟩)

/-- The ClientJsonrpcNotification envelope of schema_utils.rs. -/
structure ClientJsonrpcNotification where
  jsonrpc : String
  method : String
  notification : NotificationFromClient

/-- ClientJsonrpcNotification::new (same panic pattern as the request
constructor). -/
def ClientJsonrpcNotification.new (notification : NotificationFromClient) :
    Option ClientJsonrpcNotification :=
  (notification.method).map (fun m => ⟨JSONRPC_VERSION, m, notification⟩)

/-- The ClientJsonrpcResponse envelope of schema_utils.rs. -/
structure ClientJsonrpcResponse where
  id : RequestId
  jsonrpc : String
  result : ResultFromClient

/-- ClientJsonrpcResponse::new. -/
def ClientJsonrpcResponse.new (id : RequestId) (result : ResultFromClient) :
    ClientJsonrpcResponse :=
  ⟨id, JSONRPC_VERSION, result⟩

/-- The ServerJsonrpcRequest envelope of schema_utils.rs. -/
structure ServerJsonrpcRequest where
  id : RequestId
  jsonrpc : String
  method : String
  request : RequestFromServer

/-- ServerJsonrpcRequest::new (same panic pattern). -/
def ServerJsonrpcRequest.new (id : RequestId) (request : RequestFromServer) :
    Option ServerJsonrpcRequest :=
  (request.method).map (fun m => ⟨id, JSONRPC_VERSION, m, request⟩)

/-- The ServerJsonrpcNotification envelope of schema_utils.rs. -/
structure ServerJsonrpcNotification where
  jsonrpc : String
  method : String
  notification : NotificationFromServer

/-- ServerJsonrpcNotification::new (same panic pattern). -/
def ServerJsonrpcNotification.new (notification : NotificationFromServer) :
    Option ServerJsonrpcNotification :=
  (notification.method).map (fun m => ⟨JSONRPC_VERSION, m, notification⟩)

/-- The ServerJsonrpcResponse envelope of schema_utils.rs. -/
structure ServerJsonrpcResponse where
  id : RequestId
  jsonrpc : String
  result : ResultFromServer

/-- ServerJsonrpcResponse::new. -/
def ServerJsonrpcResponse.new (id : RequestId) (result : ResultFromServer) :
    ServerJsonrpcResponse :=
  ⟨id, JSONRPC_VERSION, result⟩

/-- ClientMessage from schema_utils.rs: the four envelope kinds for messages
sent by a client. -/
inductive ClientMessage where
  | Request : ClientJsonrpcRequest → ClientMessage
  | Notification : ClientJsonrpcNotification → ClientMessage
  | Response : ClientJsonrpcResponse → ClientMessage
  | Error : JsonrpcError → ClientMessage

/-- McpMessage::message_type for ClientMessage. -/
def ClientMessage.message_type : ClientMessage → MessageTypes
  | ClientMessage.Request _ => MessageTypes.Request
  | ClientMessage.Notification _ => MessageTypes.Notification
  | ClientMessage.Response _ => MessageTypes.Response
  | ClientMessage.Error _ => MessageTypes.Error

/-- McpMessage::is_request for ClientMessage. -/
def ClientMessage.is_request : ClientMessage → Bool
  | ClientMessage.Request _ => true
  | _ => false

/-- McpMessage::is_response for ClientMessage. -/
def ClientMessage.is_response : ClientMessage → Bool
  | ClientMessage.Response _ => true
  | _ => false

/-- McpMessage::is_notification for ClientMessage. -/
def ClientMessage.is_notification : ClientMessage → Bool
  | ClientMessage.Notification _ => true
  | _ => false

/-- McpMessage::is_error for ClientMessage. -/
def ClientMessage.is_error : ClientMessage → Bool
  | ClientMessage.Error _ => true
  | _ => false

/-- RpcMessage::request_id for ClientMessage. -/
def ClientMessage.request_id : ClientMessage → Option RequestId
  | ClientMessage.Request r => some r.id
  | ClientMessage.Notification _ => none
  | ClientMessage.Response r => some r.id
  | ClientMessage.Error e => some e.id

/-- The mismatch message used by every as_* narrowing operation: an internal
error naming the expected and the received message kind. -/
def invalidTypeMessage (expected actual : MessageTypes) : String :=
  "Invalid message type, expected: \"" ++ expected.display ++
    "\" received\"" ++ actual.display ++ "\""

/-- ClientMessage::as_request from schema_utils.rs. -/
def ClientMessage.as_request : ClientMessage → Except RpcError ClientJsonrpcRequest
  | ClientMessage.Request r => Except.ok r
  | m => Except.error (RpcError.internal_error.with_message
      (invalidTypeMessage MessageTypes.Request m.message_type))

/-- ClientMessage::as_notification from schema_utils.rs. -/
def ClientMessage.as_notification :
    ClientMessage → Except RpcError ClientJsonrpcNotification
  | ClientMessage.Notification n => Except.ok n
  | m => Except.error (RpcError.internal_error.with_message
      (invalidTypeMessage MessageTypes.Notification m.message_type))

/-- ClientMessage::as_response from schema_utils.rs. -/
def ClientMessage.as_response : ClientMessage → Except RpcError ClientJsonrpcResponse
  | ClientMessage.Response r => Except.ok r
  | m => Except.error (RpcError.internal_error.with_message
      (invalidTypeMessage MessageTypes.Response m.message_type))

/-- ClientMessage::as_error from schema_utils.rs. -/
def ClientMessage.as_error : ClientMessage → Except RpcError JsonrpcError
  | ClientMessage.Error e => Except.ok e
  | m => Except.error (RpcError.internal_error.with_message
      (invalidTypeMessage MessageTypes.Error m.message_type))

/-- ServerMessage from schema_utils.rs. -/
inductive ServerMessage where
  | Request : ServerJsonrpcRequest → ServerMessage
  | Notification : ServerJsonrpcNotification → ServerMessage
  | Response : ServerJsonrpcResponse → ServerMessage
  | Error : JsonrpcError → ServerMessage

/-- McpMessage::message_type for ServerMessage. -/
def ServerMessage.message_type : ServerMessage → MessageTypes
  | ServerMessage.Request _ => MessageTypes.Request
  | ServerMessage.Notification _ => MessageTypes.Notification
  | ServerMessage.Response _ => MessageTypes.Response
  | ServerMessage.Error _ => MessageTypes.Error

/-- McpMessage::is_request for ServerMessage. -/
def ServerMessage.is_request : ServerMessage → Bool
  | ServerMessage.Request _ => true
  | _ => false

/-- McpMessage::is_response for ServerMessage. -/
def ServerMessage.is_response : ServerMessage → Bool
  | ServerMessage.Response _ => true
  | _ => false

/-- McpMessage::is_notification for ServerMessage. -/
def ServerMessage.is_notification : ServerMessage → Bool
  | ServerMessage.Notification _ => true
  | _ => false

/-- McpMessage::is_error for ServerMessage. -/
def ServerMessage.is_error : ServerMessage → Bool
  | ServerMessage.Error _ => true
  | _ => false

/-- RpcMessage::request_id for ServerMessage. -/
def ServerMessage.request_id : ServerMessage → Option RequestId
  | ServerMessage.Request r => some r.id
  | ServerMessage.Notification _ => none
  | ServerMessage.Response r => some r.id
  | ServerMessage.Error e => some e.id

/-- ServerMessage::as_request from schema_utils.rs. -/
def ServerMessage.as_request : ServerMessage → Except RpcError ServerJsonrpcRequest
  | ServerMessage.Request r => Except.ok r
  | m => Except.error (RpcError.internal_error.with_message
      (invalidTypeMessage MessageTypes.Request m.message_type))

/-- ServerMessage::as_notification from schema_utils.rs. -/
def ServerMessage.as_notification :
    ServerMessage → Except RpcError ServerJsonrpcNotification
  | ServerMessage.Notification n => Except.ok n
  | m => Except.error (RpcError.internal_error.with_message
      (invalidTypeMessage MessageTypes.Notification m.message_type))

/-- ServerMessage::as_response from schema_utils.rs. -/
def ServerMessage.as_response : ServerMessage → Except RpcError ServerJsonrpcResponse
  | ServerMessage.Response r => Except.ok r
  | m => Except.error (RpcError.internal_error.with_message
      (invalidTypeMessage MessageTypes.Response m.message_type))

/-- ServerMessage::as_error from schema_utils.rs. -/
def ServerMessage.as_error : ServerMessage → Except RpcError JsonrpcError
  | ServerMessage.Error e => Except.ok e
  | m => Except.error (RpcError.internal_error.with_message
      (invalidTypeMessage MessageTypes.Error m.message_type))

/-- MessageFromClient from schema_utils.rs: the payload-only message shapes a
client produces. -/
inductive MessageFromClient where
  | RequestFromClient : RequestFromClient → MessageFromClient
  | ResultFromClient : ResultFromClient → MessageFromClient
  | NotificationFromClient : NotificationFromClient → MessageFromClient
  | Error : RpcError → MessageFromClient

/-- McpMessage::message_type for MessageFromClient. -/
def MessageFromClient.message_type : MessageFromClient → MessageTypes
  | MessageFromClient.RequestFromClient _ => MessageTypes.Request
  | MessageFromClient.ResultFromClient _ => MessageTypes.Response
  | MessageFromClient.NotificationFromClient _ => MessageTypes.Notification
  | MessageFromClient.Error _ => MessageTypes.Error

/-- True when building an envelope from this payload cannot hit the panicking
method accessor: every payload except a Custom request or notification whose
raw value lacks a string method field. -/
def MessageFromClient.methodAvailable : MessageFromClient → Bool
  | MessageFromClient.RequestFromClient r => r.method.isSome
  | MessageFromClient.NotificationFromClient n => n.method.isSome
  | _ => true

/-- FromMessage for ClientMessage from schema_utils.rs: attach or validate the
optional request id per payload kind.  The inner constructors can panic on
Custom payloads without a method (none stands for the panic); the id-presence
checks run first in the Request arm and in the Notification arm, as in the
source. -/
def ClientMessage.from_message (message : MessageFromClient)
    (request_id : Option RequestId) : Option (Except RpcError ClientMessage) :=
  match message with
  | MessageFromClient.RequestFromClient request_from_client =>
      match request_id with
      | none => some (Except.error
          (RpcError.internal_error.with_message ("request_id is None!")))
      | some rid =>
          (ClientJsonrpcRequest.new rid request_from_client).map
            (fun e => Except.ok (ClientMessage.Request e))
  | MessageFromClient.ResultFromClient result_from_client =>
      match request_id with
      | none => some (Except.error
          (RpcError.internal_error.with_message ("request_id is None!")))
      | some rid =>
          some (Except.ok (ClientMessage.Response
            (ClientJsonrpcResponse.new rid result_from_client)))
  | MessageFromClient.NotificationFromClient notification_from_client =>
      match request_id with
      | some _ => some (Except.error (RpcError.internal_error.with_message
          ("request_id expected to be None for Notifications!")))
      | none =>
          (ClientJsonrpcNotification.new notification_from_client).map
            (fun e => Except.ok (ClientMessage.Notification e))
  | MessageFromClient.Error jsonrpc_error_error =>
      match request_id with
      | none => some (Except.error
          (RpcError.internal_error.with_message ("request_id is None!")))
      | some rid =>
          some (Except.ok (ClientMessage.Error
            (JsonrpcError.new jsonrpc_error_error rid)))

/-- MessageFromServer from schema_utils.rs. -/
inductive MessageFromServer where
  | RequestFromServer : RequestFromServer → MessageFromServer
  | ResultFromServer : ResultFromServer → MessageFromServer
  | NotificationFromServer : NotificationFromServer → MessageFromServer
  | Error : RpcError → MessageFromServer

/-- McpMessage::message_type for MessageFromServer. -/
def MessageFromServer.message_type : MessageFromServer → MessageTypes
  | MessageFromServer.RequestFromServer _ => MessageTypes.Request
  | MessageFromServer.ResultFromServer _ => MessageTypes.Response
  | MessageFromServer.NotificationFromServer _ => MessageTypes.Notification
  | MessageFromServer.Error _ => MessageTypes.Error

/-- As MessageFromClient.methodAvailable, on the server side. -/
def MessageFromServer.methodAvailable : MessageFromServer → Bool
  | MessageFromServer.RequestFromServer r => r.method.isSome
  | MessageFromServer.NotificationFromServer n => n.method.isSome
  | _ => true

/-- FromMessage for ServerMessage from schema_utils.rs. -/
def ServerMessage.from_message (message : MessageFromServer)
    (request_id : Option RequestId) : Option (Except RpcError ServerMessage) :=
  match message with
  | MessageFromServer.RequestFromServer request_from_server =>
      match request_id with
      | none => some (Except.error
          (RpcError.internal_error.with_message ("request_id is None!")))
      | some rid =>
          (ServerJsonrpcRequest.new rid request_from_server).map
            (fun e => Except.ok (ServerMessage.Request e))
  | MessageFromServer.ResultFromServer result_from_server =>
      match request_id with
      | none => some (Except.error
          (RpcError.internal_error.with_message ("request_id is None!")))
      | some rid =>
          some (Except.ok (ServerMessage.Response
            (ServerJsonrpcResponse.new rid result_from_server)))
  | MessageFromServer.NotificationFromServer notification_from_server =>
      match request_id with
      | some _ => some (Except.error (RpcError.internal_error.with_message
          ("request_id expected to be None for Notifications!")))
      | none =>
          (ServerJsonrpcNotification.new notification_from_server).map
            (fun e => Except.ok (ServerMessage.Notification e))
  | MessageFromServer.Error jsonrpc_error_error =>
      match request_id with
      | none => some (Except.error
          (RpcError.internal_error.with_message ("request_id is None!")))
      | some rid =>
          some (Except.ok (ServerMessage.Error
            (JsonrpcError.new jsonrpc_error_error rid)))

/-- ClientMessages from schema_utils.rs: a single client envelope or an
ordered batch. -/
inductive ClientMessages where
  | Single : ClientMessage → ClientMessages
  | Batch : List ClientMessage → ClientMessages

/-- ClientMessages::includes_request from schema_utils.rs. -/
def ClientMessages.includes_request : ClientMessages → Bool
  | ClientMessages.Single client_message => client_message.is_request
  | ClientMessages.Batch client_messages =>
      client_messages.any ClientMessage.is_request

/-- ServerMessages from schema_utils.rs. -/
inductive ServerMessages where
  | Single : ServerMessage → ServerMessages
  | Batch : List ServerMessage → ServerMessages

/-- ServerMessages::includes_request from schema_utils.rs. -/
def ServerMessages.includes_request : ServerMessages → Bool
  | ServerMessages.Single server_message => server_message.is_request
  | ServerMessages.Batch server_messages =>
      server_messages.any ServerMessage.is_request

/-- The SdkErrorCodes enum from schema_utils.rs. -/
inductive SdkErrorCodes where
  | CONNECTION_CLOSED : SdkErrorCodes
  | REQUEST_TIMEOUT : SdkErrorCodes
  | RESOURCE_NOT_FOUND : SdkErrorCodes
  | BAD_REQUEST : SdkErrorCodes
  | SESSION_NOT_FOUND : SdkErrorCodes
  | INVALID_REQUEST : SdkErrorCodes
  | METHOD_NOT_FOUND : SdkErrorCodes
  | INVALID_PARAMS : SdkErrorCodes
  | INTERNAL_ERROR : SdkErrorCodes
  | PARSE_ERROR : SdkErrorCodes
deriving DecidableEq, Repr

/-- The numeric discriminants of SdkErrorCodes (From for i64). -/
def SdkErrorCodes.toInt : SdkErrorCodes → Int
  | SdkErrorCodes.CONNECTION_CLOSED => -32000
  | SdkErrorCodes.REQUEST_TIMEOUT => -32001
  | SdkErrorCodes.RESOURCE_NOT_FOUND => -32002
  | SdkErrorCodes.BAD_REQUEST => -32015
  | SdkErrorCodes.SESSION_NOT_FOUND => -32016
  | SdkErrorCodes.INVALID_REQUEST => -32600
  | SdkErrorCodes.METHOD_NOT_FOUND => -32601
  | SdkErrorCodes.INVALID_PARAMS => -32602
  | SdkErrorCodes.INTERNAL_ERROR => -32603
  | SdkErrorCodes.PARSE_ERROR => -32700

/-- The Display impl for SdkErrorCodes from schema_utils.rs. -/
def SdkErrorCodes.display : SdkErrorCodes → String
  | SdkErrorCodes.CONNECTION_CLOSED => "Connection closed"
  | SdkErrorCodes.REQUEST_TIMEOUT => "Request timeout"
  | SdkErrorCodes.RESOURCE_NOT_FOUND => "Resource not found"
  | SdkErrorCodes.BAD_REQUEST => "Bad request"
  | SdkErrorCodes.SESSION_NOT_FOUND => "Session not found"
  | SdkErrorCodes.INVALID_REQUEST => "Invalid request"
  | SdkErrorCodes.METHOD_NOT_FOUND => "Method not found"
  | SdkErrorCodes.INVALID_PARAMS => "Invalid params"
  | SdkErrorCodes.INTERNAL_ERROR => "Internal error"
  | SdkErrorCodes.PARSE_ERROR => "Parse Error"

/-- The SdkError struct from schema_utils.rs. -/
structure SdkError where
  code : Int
  data : Option Json
  message : String

/-- SdkError::connection_closed from schema_utils.rs. -/
def SdkError.connection_closed : SdkError :=
  ⟨SdkErrorCodes.CONNECTION_CLOSED.toInt, none, SdkErrorCodes.CONNECTION_CLOSED.display⟩

/-- SdkError::request_timeout from schema_utils.rs (the timeout is attached
as data). -/
def SdkError.request_timeout (timeout : Nat) : SdkError :=
  ⟨SdkErrorCodes.REQUEST_TIMEOUT.toInt,
    some (Json.obj [("timeout", Json.num timeout)]),
    SdkErrorCodes.REQUEST_TIMEOUT.display⟩

/-- SdkError::session_not_found from schema_utils.rs. -/
def SdkError.session_not_found : SdkError :=
  ⟨SdkErrorCodes.SESSION_NOT_FOUND.toInt, none, SdkErrorCodes.SESSION_NOT_FOUND.display⟩

/-- SdkError::invalid_request from schema_utils.rs. -/
def SdkError.invalid_request : SdkError :=
  ⟨SdkErrorCodes.INVALID_REQUEST.toInt, none, SdkErrorCodes.INVALID_REQUEST.display⟩

/-- SdkError::method_not_found from schema_utils.rs. -/
def SdkError.method_not_found : SdkError :=
  ⟨SdkErrorCodes.METHOD_NOT_FOUND.toInt, none, SdkErrorCodes.METHOD_NOT_FOUND.display⟩

/-- SdkError::invalid_params from schema_utils.rs. -/
def SdkError.invalid_params : SdkError :=
  ⟨SdkErrorCodes.INVALID_PARAMS.toInt, none, SdkErrorCodes.INVALID_PARAMS.display⟩

/-- SdkError::internal_error from schema_utils.rs. -/
def SdkError.internal_error : SdkError :=
  ⟨SdkErrorCodes.INTERNAL_ERROR.toInt, none, SdkErrorCodes.INTERNAL_ERROR.display⟩

/-- SdkError::parse_error from schema_utils.rs. -/
def SdkError.parse_error : SdkError :=
  ⟨SdkErrorCodes.PARSE_ERROR.toInt, none, SdkErrorCodes.PARSE_ERROR.display⟩

/-- SdkError::resource_not_found from schema_utils.rs. -/
def SdkError.resource_not_found : SdkError :=
  ⟨SdkErrorCodes.RESOURCE_NOT_FOUND.toInt, none, SdkErrorCodes.RESOURCE_NOT_FOUND.display⟩

/-- SdkError::bad_request from schema_utils.rs: note that the message is
built from RESOURCE_NOT_FOUND, exactly as in the source. -/
def SdkError.bad_request : SdkError :=
  ⟨SdkErrorCodes.BAD_REQUEST.toInt, none, SdkErrorCodes.RESOURCE_NOT_FOUND.display⟩

/-- The id-presence violation of the spec: a correlated payload (request,
result, error) without an id, or a notification with one. -/
def idInvariantViolated (kind : MessageTypes) (rid : Option RequestId) : Prop :=
  (kind ≠ MessageTypes.Notification ∧ rid = none)
    ∨ (kind = MessageTypes.Notification ∧ rid ≠ none)

/-- C3 counterexample: from_message on a Request payload with an id present
is claimed to always succeed, but on a Custom request whose value has no
method field the envelope constructor panics (none in the embedding) instead
of succeeding. -/
theorem from_message_panics_on_custom_counterexample :
    ClientMessage.from_message
      (MessageFromClient.RequestFromClient (RequestFromClient.CustomRequest (Json.obj [])))
      (some (RequestId.integer 1)) = none := rfl

/-- C2 is settled above; this is C3 amended: whenever the payload's method is
available (any payload except a Custom request/notification without a string
method field, where the builder panics), from_message returns an error exactly
when the id-presence invariant is violated, and otherwise succeeds with an
envelope of the payload's kind carrying the given id; both for ClientMessage
and for ServerMessage. -/
theorem from_message_id_invariants :
    (∀ (m : MessageFromClient) (rid : Option RequestId), m.methodAvailable = true →
      ((∃ err, ClientMessage.from_message m rid = some (Except.error err)) ↔
          idInvariantViolated m.message_type rid)
        ∧ (∀ e, ClientMessage.from_message m rid = some (Except.ok e) →
            e.message_type = m.message_type ∧ e.request_id = rid)
        ∧ ∃ res, ClientMessage.from_message m rid = some res)
    ∧ (∀ (m : MessageFromServer) (rid : Option RequestId), m.methodAvailable = true →
      ((∃ err, ServerMessage.from_message m rid = some (Except.error err)) ↔
          idInvariantViolated m.message_type rid)
        ∧ (∀ e, ServerMessage.from_message m rid = some (Except.ok e) →
            e.message_type = m.message_type ∧ e.request_id = rid)
        ∧ ∃ res, ServerMessage.from_message m rid = some res) := by
  constructor
  · intro m rid h
    cases m with
    | RequestFromClient r =>
        cases rid with
        | none =>
            simp [ClientMessage.from_message, idInvariantViolated,
              MessageFromClient.message_type]
        | some i =>
            obtain ⟨mm, hm⟩ := Option.isSome_iff_exists.mp
              (by simpa [MessageFromClient.methodAvailable] using h)
            simp [ClientMessage.from_message, ClientJsonrpcRequest.new, hm,
              idInvariantViolated, MessageFromClient.message_type,
              ClientMessage.message_type, ClientMessage.request_id]
    | ResultFromClient r =>
        cases rid <;>
          simp [ClientMessage.from_message, idInvariantViolated,
            MessageFromClient.message_type, ClientMessage.message_type,
            ClientMessage.request_id, ClientJsonrpcResponse.new]
    | NotificationFromClient n =>
        cases rid with
        | none =>
            obtain ⟨mm, hm⟩ := Option.isSome_iff_exists.mp
              (by simpa [MessageFromClient.methodAvailable] using h)
            simp [ClientMessage.from_message, ClientJsonrpcNotification.new, hm,
              idInvariantViolated, MessageFromClient.message_type,
              ClientMessage.message_type, ClientMessage.request_id]
        | some i =>
            simp [ClientMessage.from_message, idInvariantViolated,
              MessageFromClient.message_type]
    | Error e =>
        cases rid <;>
          simp [ClientMessage.from_message, idInvariantViolated,
            MessageFromClient.message_type, ClientMessage.message_type,
            ClientMessage.request_id, JsonrpcError.new]
  · intro m rid h
    cases m with
    | RequestFromServer r =>
        cases rid with
        | none =>
            simp [ServerMessage.from_message, idInvariantViolated,
              MessageFromServer.message_type]
        | some i =>
            obtain ⟨mm, hm⟩ := Option.isSome_iff_exists.mp
              (by simpa [MessageFromServer.methodAvailable] using h)
            simp [ServerMessage.from_message, ServerJsonrpcRequest.new, hm,
              idInvariantViolated, MessageFromServer.message_type,
              ServerMessage.message_type, ServerMessage.request_id]
    | ResultFromServer r =>
        cases rid <;>
          simp [ServerMessage.from_message, idInvariantViolated,
            MessageFromServer.message_type, ServerMessage.message_type,
            ServerMessage.request_id, ServerJsonrpcResponse.new]
    | NotificationFromServer n =>
        cases rid with
        | none =>
            obtain ⟨mm, hm⟩ := Option.isSome_iff_exists.mp
              (by simpa [MessageFromServer.methodAvailable] using h)
            simp [ServerMessage.from_message, ServerJsonrpcNotification.new, hm,
              idInvariantViolated, MessageFromServer.message_type,
              ServerMessage.message_type, ServerMessage.request_id]
        | some i =>
            simp [ServerMessage.from_message, idInvariantViolated,
              MessageFromServer.message_type]
    | Error e =>
        cases rid <;>
          simp [ServerMessage.from_message, idInvariantViolated,
            MessageFromServer.message_type, ServerMessage.message_type,
            ServerMessage.request_id, JsonrpcError.new]

/-- Witness for from_message_id_invariants: an Error payload with no id gives
the error outcome. -/
theorem from_message_id_invariants_witness :
    ((∃ err, ClientMessage.from_message (MessageFromClient.Error RpcError.parse_error)
          none = some (Except.error err)) ↔
        idInvariantViolated
          (MessageFromClient.message_type (MessageFromClient.Error RpcError.parse_error)) none)
      ∧ (∀ e, ClientMessage.from_message (MessageFromClient.Error RpcError.parse_error)
            none = some (Except.ok e) →
          e.message_type =
              MessageFromClient.message_type (MessageFromClient.Error RpcError.parse_error)
            ∧ e.request_id = none)
      ∧ ∃ res, ClientMessage.from_message (MessageFromClient.Error RpcError.parse_error)
          none = some res :=
  from_message_id_invariants.1 (MessageFromClient.Error RpcError.parse_error) none rfl

/-- C7: each as_* narrowing operation on ClientMessage and ServerMessage
returns the inner value exactly when the message is of the requested kind,
and on any of the other three kinds fails with the internal error whose
message names the expected kind and the actual kind. -/
theorem narrowing_ops_exact :
    (∀ m : ClientMessage,
      ((∀ r, m.as_request = Except.ok r ↔ m = ClientMessage.Request r)
        ∧ (m.is_request = false → m.as_request = Except.error
            (RpcError.internal_error.with_message
              (invalidTypeMessage MessageTypes.Request m.message_type))))
      ∧ ((∀ n, m.as_notification = Except.ok n ↔ m = ClientMessage.Notification n)
        ∧ (m.is_notification = false → m.as_notification = Except.error
            (RpcError.internal_error.with_message
              (invalidTypeMessage MessageTypes.Notification m.message_type))))
      ∧ ((∀ r, m.as_response = Except.ok r ↔ m = ClientMessage.Response r)
        ∧ (m.is_response = false → m.as_response = Except.error
            (RpcError.internal_error.with_message
              (invalidTypeMessage MessageTypes.Response m.message_type))))
      ∧ ((∀ e, m.as_error = Except.ok e ↔ m = ClientMessage.Error e)
        ∧ (m.is_error = false → m.as_error = Except.error
            (RpcError.internal_error.with_message
              (invalidTypeMessage MessageTypes.Error m.message_type)))))
    ∧ (∀ m : ServerMessage,
      ((∀ r, m.as_request = Except.ok r ↔ m = ServerMessage.Request r)
        ∧ (m.is_request = false → m.as_request = Except.error
            (RpcError.internal_error.with_message
              (invalidTypeMessage MessageTypes.Request m.message_type))))
      ∧ ((∀ n, m.as_notification = Except.ok n ↔ m = ServerMessage.Notification n)
        ∧ (m.is_notification = false → m.as_notification = Except.error
            (RpcError.internal_error.with_message
              (invalidTypeMessage MessageTypes.Notification m.message_type))))
      ∧ ((∀ r, m.as_response = Except.ok r ↔ m = ServerMessage.Response r)
        ∧ (m.is_response = false → m.as_response = Except.error
            (RpcError.internal_error.with_message
              (invalidTypeMessage MessageTypes.Response m.message_type))))
      ∧ ((∀ e, m.as_error = Except.ok e ↔ m = ServerMessage.Error e)
        ∧ (m.is_error = false → m.as_error = Except.error
            (RpcError.internal_error.with_message
              (invalidTypeMessage MessageTypes.Error m.message_type))))) := by
  constructor
  · intro m
    cases m <;>
      simp [ClientMessage.as_request, ClientMessage.as_notification,
        ClientMessage.as_response, ClientMessage.as_error,
        ClientMessage.is_request, ClientMessage.is_notification,
        ClientMessage.is_response, ClientMessage.is_error]
  · intro m
    cases m <;>
      simp [ServerMessage.as_request, ServerMessage.as_notification,
        ServerMessage.as_response, ServerMessage.as_error,
        ServerMessage.is_request, ServerMessage.is_notification,
        ServerMessage.is_response, ServerMessage.is_error]

/-- Witness for narrowing_ops_exact: narrowing a concrete Error message to a
request fails with the message naming the expected kind Request and the
actual kind Error. -/
theorem narrowing_ops_exact_witness :
    ClientMessage.as_request
        (ClientMessage.Error (JsonrpcError.new RpcError.parse_error (RequestId.integer 1)))
      = Except.error (RpcError.internal_error.with_message
          (invalidTypeMessage MessageTypes.Request
            (ClientMessage.message_type (ClientMessage.Error
              (JsonrpcError.new RpcError.parse_error (RequestId.integer 1)))))) :=
  ((narrowing_ops_exact.1
    (ClientMessage.Error (JsonrpcError.new RpcError.parse_error (RequestId.integer 1)))).1).2 rfl

/-- C8: includes_request on a Single wrapper reports whether the sole element
is a request, and on a Batch wrapper reports whether at least one element is
a request (hence false on an empty batch and on a batch with no requests),
for both client and server batch wrappers. -/
theorem includes_request_iff :
    (∀ m : ClientMessage,
      ClientMessages.includes_request (ClientMessages.Single m) = m.is_request)
    ∧ (∀ ms : List ClientMessage,
      ClientMessages.includes_request (ClientMessages.Batch ms) = true ↔
        ∃ m ∈ ms, m.is_request = true)
    ∧ (∀ m : ServerMessage,
      ServerMessages.includes_request (ServerMessages.Single m) = m.is_request)
    ∧ (∀ ms : List ServerMessage,
      ServerMessages.includes_request (ServerMessages.Batch ms) = true ↔
        ∃ m ∈ ms, m.is_request = true) := by
  refine ⟨fun m => rfl, fun ms => ?_, fun m => rfl, fun ms => ?_⟩ <;>
    simp [ClientMessages.includes_request, ServerMessages.includes_request,
      List.any_eq_true]

/-- C9: on a Custom request or notification payload whose raw value has no
string method field, the method accessor panics (none in the embedding), and
therefore the envelope constructors ClientJsonrpcRequest::new and
ClientJsonrpcNotification::new panic as well instead of returning an error. -/
theorem custom_payload_method_panics :
    ∀ (v : Json) (id : RequestId), (v.get ("method")).bind Json.asStr = none →
      RequestFromClient.method (RequestFromClient.CustomRequest v) = none
      ∧ NotificationFromClient.method (NotificationFromClient.CustomNotification v) = none
      ∧ ClientJsonrpcRequest.new id (RequestFromClient.CustomRequest v) = none
      ∧ ClientJsonrpcNotification.new (NotificationFromClient.CustomNotification v) = none := by
  intro v id h
  refine ⟨h, h, ?_, ?_⟩
  · simp [ClientJsonrpcRequest.new, RequestFromClient.method, h]
  · simp [ClientJsonrpcNotification.new, NotificationFromClient.method, h]

/-- Witness for custom_payload_method_panics at the empty JSON object. -/
theorem custom_payload_method_panics_witness :
    RequestFromClient.method (RequestFromClient.CustomRequest (Json.obj [])) = none
    ∧ NotificationFromClient.method
        (NotificationFromClient.CustomNotification (Json.obj [])) = none
    ∧ ClientJsonrpcRequest.new (RequestId.integer 1)
        (RequestFromClient.CustomRequest (Json.obj [])) = none
    ∧ ClientJsonrpcNotification.new
        (NotificationFromClient.CustomNotification (Json.obj [])) = none :=
  custom_payload_method_panics (Json.obj []) (RequestId.integer 1) rfl

/-- C10: SdkError::bad_request carries the BAD_REQUEST code -32015 but the
RESOURCE_NOT_FOUND display message, while every other SdkError constructor
pairs its code with that same code's display string. -/
theorem sdk_bad_request_message_mismatch :
    (SdkError.bad_request.code = -32015
      ∧ SdkError.bad_request.code = SdkErrorCodes.BAD_REQUEST.toInt
      ∧ SdkError.bad_request.message = "Resource not found"
      ∧ SdkError.bad_request.message = SdkErrorCodes.RESOURCE_NOT_FOUND.display
      ∧ SdkError.bad_request.message ≠ SdkErrorCodes.BAD_REQUEST.display)
    ∧ (SdkError.connection_closed.code = SdkErrorCodes.CONNECTION_CLOSED.toInt
      ∧ SdkError.connection_closed.message = SdkErrorCodes.CONNECTION_CLOSED.display)
    ∧ (∀ t : Nat,
      (SdkError.request_timeout t).code = SdkErrorCodes.REQUEST_TIMEOUT.toInt
      ∧ (SdkError.request_timeout t).message = SdkErrorCodes.REQUEST_TIMEOUT.display)
    ∧ (SdkError.session_not_found.code = SdkErrorCodes.SESSION_NOT_FOUND.toInt
      ∧ SdkError.session_not_found.message = SdkErrorCodes.SESSION_NOT_FOUND.display)
    ∧ (SdkError.resource_not_found.code = SdkErrorCodes.RESOURCE_NOT_FOUND.toInt
      ∧ SdkError.resource_not_found.message = SdkErrorCodes.RESOURCE_NOT_FOUND.display)
    ∧ (SdkError.invalid_request.code = SdkErrorCodes.INVALID_REQUEST.toInt
      ∧ SdkError.invalid_request.message = SdkErrorCodes.INVALID_REQUEST.display)
    ∧ (SdkError.method_not_found.code = SdkErrorCodes.METHOD_NOT_FOUND.toInt
      ∧ SdkError.method_not_found.message = SdkErrorCodes.METHOD_NOT_FOUND.display)
    ∧ (SdkError.invalid_params.code = SdkErrorCodes.INVALID_PARAMS.toInt
      ∧ SdkError.invalid_params.message = SdkErrorCodes.INVALID_PARAMS.display)
    ∧ (SdkError.internal_error.code = SdkErrorCodes.INTERNAL_ERROR.toInt
      ∧ SdkError.internal_error.message = SdkErrorCodes.INTERNAL_ERROR.display)
    ∧ (SdkError.parse_error.code = SdkErrorCodes.PARSE_ERROR.toInt
      ∧ SdkError.parse_error.message = SdkErrorCodes.PARSE_ERROR.display) := by
  refine ⟨⟨rfl, rfl, rfl, rfl, ?_⟩, ⟨rfl, rfl⟩, fun t => ⟨rfl, rfl⟩, ⟨rfl, rfl⟩,
    ⟨rfl, rfl⟩, ⟨rfl, rfl⟩, ⟨rfl, rfl⟩, ⟨rfl, rfl⟩, ⟨rfl, rfl⟩, rfl, rfl⟩
  decide

/-- True exactly on JSON null. -/
def Json.isNull : Json → Bool
  | Json.null => true
  | _ => false

/-- Serialization of a RequestId (serde untagged: a bare string or number). -/
def RequestId.toJson : RequestId → Json
  | RequestId.string s => Json.str s
  | RequestId.integer i => Json.num i

/-- Deserialization of a RequestId (serde untagged: a JSON string or an
integer; anything else fails). -/
def RequestId.fromJson : Json → Except String RequestId
  | Json.str s => Except.ok (RequestId.string s)
  | Json.num i => Except.ok (RequestId.integer i)
  | _ => Except.error ("data did not match any variant of untagged enum RequestId")

/-- The Serialize impl for ClientJsonrpcRequest in schema_utils.rs: a struct
with id, jsonrpc, method, then the params of the payload.  A known shape
writes its own params field (the shapes with optional params omit it when
absent, collapsed here to the null value); a Custom payload writes the whole
custom value under params. -/
def ClientJsonrpcRequest.serialize (e : ClientJsonrpcRequest) : Json :=
  Json.obj ([("id", e.id.toJson), ("jsonrpc", Json.str e.jsonrpc),
      ("method", Json.str e.method)] ++
    match e.request with
    | RequestFromClient.ClientRequest r =>
        if r.params.isNull then [] else [("params", r.params)]
    | RequestFromClient.CustomRequest v => [("params", v)])

/-- The field loop of the ClientJsonrpcRequest visitor in schema_utils.rs:
id is read as a RequestId, jsonrpc and method as strings, params as a raw
value; any other key is an unknown-field error; a repeated key overwrites. -/
def clientJsonrpcRequestFields :
    List (String × Json) →
      Option RequestId × Option String × Option String × Option Json →
      Except String (Option RequestId × Option String × Option String × Option Json)
  | [], st => Except.ok st
  | (key, value) :: rest, (id, jsonrpc, method, params) =>
      if key = "id" then
        match RequestId.fromJson value with
        | Except.error e => Except.error e
        | Except.ok i => clientJsonrpcRequestFields rest (some i, jsonrpc, method, params)
      else if key = "jsonrpc" then
        match value.asStr with
        | none => Except.error ("invalid type: expected a string")
        | some s => clientJsonrpcRequestFields rest (id, some s, method, params)
      else if key = "method" then
        match value.asStr with
        | none => Except.error ("invalid type: expected a string")
        | some s => clientJsonrpcRequestFields rest (id, jsonrpc, some s, params)
      else if key = "params" then
        clientJsonrpcRequestFields rest (id, jsonrpc, method, some value)
      else
        Except.error ("unknown field `" ++ key ++ "`")

/-- The Deserialize impl for ClientJsonrpcRequest in schema_utils.rs: visit
the map, require id, jsonrpc and method (jsonrpc is NOT validated against the
2.0 constant here — it is stored as read), default params to null, rebuild a
method/params object and resolve it through RequestFromClient. -/
def ClientJsonrpcRequest.deserialize (raw : Json) : Except String ClientJsonrpcRequest :=
  match raw with
  | Json.obj fields =>
      match clientJsonrpcRequestFields fields (none, none, none, none) with
      | Except.error e => Except.error e
      | Except.ok (id, jsonrpc, method, params) =>
          match id with
          | none => Except.error ("missing field `id`")
          | some id =>
              match jsonrpc with
              | none => Except.error ("missing field `jsonrpc`")
              | some jsonrpc =>
                  match method with
                  | none => Except.error ("missing field `method`")
                  | some method =>
                      match RequestFromClient.deserialize
                          (Json.obj [("method", Json.str method),
                            ("params", params.getD Json.null)]) with
                      | Except.error e => Except.error e
                      | Except.ok request => Except.ok ⟨id, jsonrpc, method, request⟩
  | _ => Except.error ("a valid JSON-RPC request object")

/-- The Serialize impl for ClientJsonrpcNotification in schema_utils.rs
(jsonrpc, method, then the payload's params, as for requests). -/
def ClientJsonrpcNotification.serialize (e : ClientJsonrpcNotification) : Json :=
  Json.obj ([("jsonrpc", Json.str e.jsonrpc), ("method", Json.str e.method)] ++
    match e.notification with
    | NotificationFromClient.ClientNotification n =>
        if n.params.isNull then [] else [("params", n.params)]
    | NotificationFromClient.CustomNotification v => [("params", v)])

/-- The field loop of the ClientJsonrpcNotification visitor in
schema_utils.rs: only jsonrpc, method and params are accepted. -/
def clientJsonrpcNotificationFields :
    List (String × Json) →
      Option String × Option String × Option Json →
      Except String (Option String × Option String × Option Json)
  | [], st => Except.ok st
  | (key, value) :: rest, (jsonrpc, method, params) =>
      if key = "jsonrpc" then
        match value.asStr with
        | none => Except.error ("invalid type: expected a string")
        | some s => clientJsonrpcNotificationFields rest (some s, method, params)
      else if key = "method" then
        match value.asStr with
        | none => Except.error ("invalid type: expected a string")
        | some s => clientJsonrpcNotificationFields rest (jsonrpc, some s, params)
      else if key = "params" then
        clientJsonrpcNotificationFields rest (jsonrpc, method, some value)
      else
        Except.error ("unknown field `" ++ key ++ "`")

/-- The Deserialize impl for ClientJsonrpcNotification in schema_utils.rs. -/
def ClientJsonrpcNotification.deserialize (raw : Json) :
    Except String ClientJsonrpcNotification :=
  match raw with
  | Json.obj fields =>
      match clientJsonrpcNotificationFields fields (none, none, none) with
      | Except.error e => Except.error e
      | Except.ok (jsonrpc, method, params) =>
          match jsonrpc with
          | none => Except.error ("missing field `jsonrpc`")
          | some jsonrpc =>
              match method with
              | none => Except.error ("missing field `method`")
              | some method =>
                  match NotificationFromClient.deserialize
                      (Json.obj [("method", Json.str method),
                        ("params", params.getD Json.null)]) with
                  | Except.error e => Except.error e
                  | Except.ok notification => Except.ok ⟨jsonrpc, method, notification⟩
  | _ => Except.error ("a valid JSON-RPC notification object")

/-- Serialization of a ResultFromClient (untagged): a known result reproduces
its captured object, a custom result its raw value. -/
def ResultFromClient.serialize : ResultFromClient → Json
  | ResultFromClient.ClientResult r => r.value
  | ResultFromClient.CustomResult v => v

/-- The Serialize impl for ClientJsonrpcResponse in schema_utils.rs:
id, jsonrpc, result. -/
def ClientJsonrpcResponse.serialize (e : ClientJsonrpcResponse) : Json :=
  Json.obj [("id", e.id.toJson), ("jsonrpc", Json.str e.jsonrpc),
    ("result", e.result.serialize)]

/-- The field loop of the ClientJsonrpcResponse visitor in schema_utils.rs:
only id, jsonrpc and result are accepted. -/
def clientJsonrpcResponseFields :
    List (String × Json) →
      Option RequestId × Option String × Option Json →
      Except String (Option RequestId × Option String × Option Json)
  | [], st => Except.ok st
  | (key, value) :: rest, (id, jsonrpc, result) =>
      if key = "id" then
        match RequestId.fromJson value with
        | Except.error e => Except.error e
        | Except.ok i => clientJsonrpcResponseFields rest (some i, jsonrpc, result)
      else if key = "jsonrpc" then
        match value.asStr with
        | none => Except.error ("invalid type: expected a string")
        | some s => clientJsonrpcResponseFields rest (id, some s, result)
      else if key = "result" then
        clientJsonrpcResponseFields rest (id, jsonrpc, some value)
      else
        Except.error ("unknown field `" ++ key ++ "`")

/-- The Deserialize impl for ClientJsonrpcResponse in schema_utils.rs: id,
jsonrpc and result are all required; the result value is resolved through
ResultFromClient. -/
def ClientJsonrpcResponse.deserialize (raw : Json) :
    Except String ClientJsonrpcResponse :=
  match raw with
  | Json.obj fields =>
      match clientJsonrpcResponseFields fields (none, none, none) with
      | Except.error e => Except.error e
      | Except.ok (id, jsonrpc, result) =>
          match id with
          | none => Except.error ("missing field `id`")
          | some id =>
              match jsonrpc with
              | none => Except.error ("missing field `jsonrpc`")
              | some jsonrpc =>
                  match result with
                  | none => Except.error ("missing field `result`")
                  | some result =>
                      match ResultFromClient.deserialize result with
                      | Except.error e => Except.error e
                      | Except.ok result => Except.ok ⟨id, jsonrpc, result⟩
  | _ => Except.error ("a valid JSON-RPC response object")

/-- Modelled from the spec: the derived serde serialization of RpcError —
code, optional data (omitted when absent), message. -/
def RpcError.serialize (e : RpcError) : Json :=
  Json.obj ([("code", Json.num e.code)] ++
    (match e.data with
     | none => []
     | some d => [("data", d)]) ++
    [("message", Json.str e.message)])

/-- Modelled from the spec: the derived serde deserialization of RpcError —
code and message required, data optional. -/
def RpcError.fromJson (raw : Json) : Except String RpcError :=
  match raw with
  | Json.obj _ =>
      match raw.get ("code") with
      | some (Json.num code) =>
          (match raw.get ("message") with
           | some (Json.str message) =>
               Except.ok ⟨code, raw.get ("data"), message⟩
           | _ => Except.error ("missing field `message`"))
      | _ => Except.error ("missing field `code`")
  | _ => Except.error ("invalid type: expected an object")

/-- Modelled from the spec: the derived serde serialization of the
JsonrpcError envelope — error object, id, jsonrpc marker. -/
def JsonrpcError.serialize (e : JsonrpcError) : Json :=
  Json.obj [("error", e.error.serialize), ("id", e.id.toJson),
    ("jsonrpc", Json.str e.jsonrpc)]

/-- Modelled from the spec: the derived serde deserialization of the
JsonrpcError envelope; the jsonrpc constant marker is validated by
const_str_validator when present (as listed in the validator table) and
defaults to 2.0 when absent. -/
def JsonrpcError.deserialize (raw : Json) : Except String JsonrpcError :=
  match raw with
  | Json.obj _ =>
      match raw.get ("error") with
      | none => Except.error ("missing field `error`")
      | some errorValue =>
          match RpcError.fromJson errorValue with
          | Except.error e => Except.error e
          | Except.ok error =>
              match raw.get ("id") with
              | none => Except.error ("missing field `id`")
              | some idValue =>
                  match RequestId.fromJson idValue with
                  | Except.error e => Except.error e
                  | Except.ok id =>
                      match raw.get ("jsonrpc") with
                      | none => Except.ok ⟨error, id, JSONRPC_VERSION⟩
                      | some j =>
                          match const_str_validator ("JsonrpcError") ("jsonrpc")
                              ("2.0") j with
                          | Except.error e => Except.error e
                          | Except.ok jsonrpc => Except.ok ⟨error, id, jsonrpc⟩
  | _ => Except.error ("invalid type: expected an object")

/-- Deserializing the serialization of a RequestId gives it back. -/
theorem requestId_fromJson_toJson (id : RequestId) :
    RequestId.fromJson id.toJson = Except.ok id := by
  cases id <;> rfl

/-- The payload resolver for client requests never fails (helper shared by
several results). -/
theorem requestFromClient_deserialize_total (v : Json) :
    ∃ x, RequestFromClient.deserialize v = Except.ok x := by
  cases h : ClientRequest.deserialize v <;>
    simp [RequestFromClient.deserialize, h]

/-- C6 counterexample: a payload whose jsonrpc is the wrong constant 1.0 but
which otherwise matches the ping closed shape is deserialized successfully by
the envelope type ClientJsonrpcRequest (which stores the wrong marker as is
and still resolves the payload as the Known ping request), contradicting the
claim that envelope deserialization fails on a wrong jsonrpc constant. -/
theorem envelope_accepts_wrong_jsonrpc_counterexample :
    ClientJsonrpcRequest.deserialize
      (Json.obj [("id", Json.num 1), ("jsonrpc", Json.str ("1.0")),
        ("method", Json.str ("ping"))]) =
    Except.ok ⟨RequestId.integer 1, "1.0", "ping",
      RequestFromClient.ClientRequest ⟨"ping", Json.null⟩⟩ := rfl

/-- C6 amended: a closed vocabulary shape rejects a structurally matching
payload whose jsonrpc field is present but not 2.0, with the
const_str_validator error naming the struct, the field, the expected constant
and the actual value; the envelope types such as ClientJsonrpcRequest perform
no such validation — they accept and preserve an arbitrary jsonrpc string. -/
theorem wrong_jsonrpc_shape_rejects_envelope_accepts :
    (∀ (s m j : String) (raw : Json),
      raw.get ("method") = some (Json.str m) →
      raw.get ("jsonrpc") = some (Json.str j) →
      j ≠ "2.0" →
      deserializeShape s m raw =
        Except.error (constMismatchMessage s ("jsonrpc") ("2.0") j))
    ∧ (∀ (id : RequestId) (j m : String),
      ∃ request, ClientJsonrpcRequest.deserialize
          (Json.obj [("id", id.toJson), ("jsonrpc", Json.str j),
            ("method", Json.str m)]) =
        Except.ok ⟨id, j, m, request⟩) := by
  constructor
  · intro s m j raw hmethod hjsonrpc hne
    have hobj : raw.isObj = true := by
      cases raw <;> simp [Json.get, Json.isObj] at hmethod ⊢
    simp [deserializeShape, hobj, hmethod, hjsonrpc, const_str_validator,
      Json.asStr, hne]
  · intro id j m
    obtain ⟨x, hx⟩ := requestFromClient_deserialize_total
      (Json.obj [("method", Json.str m), ("params", Json.null)])
    refine ⟨x, ?_⟩
    simp [ClientJsonrpcRequest.deserialize, clientJsonrpcRequestFields,
      requestId_fromJson_toJson, Json.asStr, hx]

/-- Witness for wrong_jsonrpc_shape_rejects_envelope_accepts: the ping shape
with jsonrpc 1.0 is rejected with the full validator message, and the
envelope accepts the same wrong marker. -/
theorem wrong_jsonrpc_witness :
    deserializeShape ("PingRequest") ("ping")
        (Json.obj [("method", Json.str ("ping")), ("jsonrpc", Json.str ("1.0"))]) =
      Except.error (constMismatchMessage ("PingRequest") ("jsonrpc") ("2.0") ("1.0"))
    ∧ ∃ request, ClientJsonrpcRequest.deserialize
        (Json.obj [("id", (RequestId.integer 7).toJson), ("jsonrpc", Json.str ("1.0")),
          ("method", Json.str ("x/y"))]) =
      Except.ok ⟨RequestId.integer 7, "1.0", "x/y", request⟩ :=
  ⟨wrong_jsonrpc_shape_rejects_envelope_accepts.1 ("PingRequest") ("ping") ("1.0")
      (Json.obj [("method", Json.str ("ping")), ("jsonrpc", Json.str ("1.0"))])
      rfl rfl (by decide),
    wrong_jsonrpc_shape_rejects_envelope_accepts.2 (RequestId.integer 7) ("1.0") ("x/y")⟩

/-- A JSON value is null exactly when isNull holds. -/
theorem Json.isNull_iff (v : Json) : v.isNull = true ↔ v = Json.null := by
  cases v <;> simp [Json.isNull]

/-- C4 counterexample: serializing a Custom request envelope puts the whole
custom value under params, and deserializing wraps it again in a fresh
method/params object, so the round trip does not reproduce the envelope
(mirrors the custom request of the crate's own serialization tests). -/
theorem roundtrip_custom_request_counterexample :
    ClientJsonrpcRequest.deserialize (ClientJsonrpcRequest.serialize
        (ClientJsonrpcRequest.mk (RequestId.integer 15) ("2.0") ("my_custom_method")
          (RequestFromClient.CustomRequest
            (Json.obj [("method", Json.str ("my_custom_method"))]))))
      = Except.ok (ClientJsonrpcRequest.mk (RequestId.integer 15) ("2.0") ("my_custom_method")
          (RequestFromClient.CustomRequest
            (Json.obj [("method", Json.str ("my_custom_method")),
              ("params", Json.obj [("method", Json.str ("my_custom_method"))])])))
    ∧ (Except.ok (ClientJsonrpcRequest.mk (RequestId.integer 15) ("2.0") ("my_custom_method")
          (RequestFromClient.CustomRequest
            (Json.obj [("method", Json.str ("my_custom_method")),
              ("params", Json.obj [("method", Json.str ("my_custom_method"))])])))
        : Except String ClientJsonrpcRequest)
      ≠ Except.ok (ClientJsonrpcRequest.mk (RequestId.integer 15) ("2.0") ("my_custom_method")
          (RequestFromClient.CustomRequest
            (Json.obj [("method", Json.str ("my_custom_method"))]))) := by
  refine ⟨rfl, ?_⟩
  simp

/-- A closed shape deserializes the rebuilt method/params object of the
envelope visitors to its payload exactly when the methods agree. -/
theorem deserializeShape_req_object (s fixed m : String) (p : Json) :
    deserializeShape s fixed (Json.obj [("method", Json.str m), ("params", p)]) =
      if m = fixed then Except.ok ⟨fixed, p⟩
      else Except.error (constMismatchMessage s ("method") fixed m) := by
  have h2 : (Json.obj [("method", Json.str m), ("params", p)]).get ("method")
      = some (Json.str m) := rfl
  have h3 : (Json.obj [("method", Json.str m), ("params", p)]).get ("jsonrpc")
      = none := rfl
  have h4 : (Json.obj [("method", Json.str m), ("params", p)]).get ("params")
      = some p := rfl
  by_cases hm : m = fixed
  · subst hm
    simp [deserializeShape, Json.isObj, h2, h3, h4, const_str_validator, Json.asStr]
  · simp [deserializeShape, Json.isObj, h2, h3, h4, const_str_validator, Json.asStr, hm]

/-- Resolution over a vocabulary containing the method of the rebuilt
method/params object yields exactly that payload. -/
theorem resolveVocabulary_req_object (vocab : List (String × String)) (m : String)
    (p : Json) (hmem : m ∈ vocab.map Prod.snd) :
    resolveVocabulary vocab (Json.obj [("method", Json.str m), ("params", p)]) =
      Except.ok ⟨m, p⟩ := by
  induction vocab with
  | nil => simp at hmem
  | cons head rest ih =>
      obtain ⟨s, m'⟩ := head
      by_cases hm : m = m'
      · subst hm
        simp [resolveVocabulary, deserializeShape_req_object]
      · have hmem' : m ∈ rest.map Prod.snd := by
          simpa [hm] using hmem
        simp [resolveVocabulary, deserializeShape_req_object, hm, ih hmem']

/-- The client request resolver recognises a rebuilt method/params object
with a vocabulary method as the Known payload. -/
theorem requestFromClient_known_req_object (m : String) (p : Json)
    (hmem : m ∈ clientRequestVocabulary.map Prod.snd) :
    RequestFromClient.deserialize (Json.obj [("method", Json.str m), ("params", p)]) =
      Except.ok (RequestFromClient.ClientRequest ⟨m, p⟩) := by
  simp [RequestFromClient.deserialize, ClientRequest.deserialize,
    resolveVocabulary_req_object _ _ _ hmem]

/-- The client notification resolver recognises a rebuilt method/params
object with a vocabulary method as the Known payload. -/
theorem notificationFromClient_known_req_object (m : String) (p : Json)
    (hmem : m ∈ clientNotificationVocabulary.map Prod.snd) :
    NotificationFromClient.deserialize (Json.obj [("method", Json.str m), ("params", p)]) =
      Except.ok (NotificationFromClient.ClientNotification ⟨m, p⟩) := by
  simp [NotificationFromClient.deserialize, ClientNotification.deserialize,
    resolveVocabulary_req_object _ _ _ hmem]

/-- C4 amended: deserializing the serialization of an envelope reproduces it
field for field, for each of the four kinds, whenever the payload is Known
and well formed (request/notification: the envelope method matches the
payload and is in the vocabulary; response: the known result value is an
object; error: the jsonrpc marker is the 2.0 constant, as every built
envelope has).  For Custom request and notification payloads the round trip
re-nests the custom value under params and does NOT reproduce the envelope
(see the counterexample). -/
theorem envelope_roundtrip_known :
    (∀ (e : ClientJsonrpcRequest) (r : ClientRequest),
      e.request = RequestFromClient.ClientRequest r →
      e.method = r.method →
      r.method ∈ clientRequestVocabulary.map Prod.snd →
      ClientJsonrpcRequest.deserialize (ClientJsonrpcRequest.serialize e) = Except.ok e)
    ∧ (∀ (e : ClientJsonrpcNotification) (n : ClientNotification),
      e.notification = NotificationFromClient.ClientNotification n →
      e.method = n.method →
      n.method ∈ clientNotificationVocabulary.map Prod.snd →
      ClientJsonrpcNotification.deserialize (ClientJsonrpcNotification.serialize e) =
        Except.ok e)
    ∧ (∀ (e : ClientJsonrpcResponse) (r : ClientResult),
      e.result = ResultFromClient.ClientResult r →
      r.value.isObj = true →
      ClientJsonrpcResponse.deserialize (ClientJsonrpcResponse.serialize e) = Except.ok e)
    ∧ (∀ e : JsonrpcError,
      e.jsonrpc = JSONRPC_VERSION →
      JsonrpcError.deserialize (JsonrpcError.serialize e) = Except.ok e) := by
  refine ⟨?_, ?_, ?_, ?_⟩
  · intro e r hreq hmth hmem
    obtain ⟨rm, rp⟩ := r
    obtain ⟨id, jsonrpc, method, request⟩ := e
    dsimp only at hreq hmth hmem
    subst hreq
    subst hmth
    by_cases hp : rp = Json.null
    · subst hp
      simp [ClientJsonrpcRequest.serialize, Json.isNull,
        ClientJsonrpcRequest.deserialize, clientJsonrpcRequestFields,
        requestId_fromJson_toJson, Json.asStr,
        requestFromClient_known_req_object _ _ hmem]
    · have hpn : rp.isNull = false := by
        cases rp <;> simp [Json.isNull] at hp ⊢
      simp [ClientJsonrpcRequest.serialize, hpn,
        ClientJsonrpcRequest.deserialize, clientJsonrpcRequestFields,
        requestId_fromJson_toJson, Json.asStr,
        requestFromClient_known_req_object _ _ hmem]
  · intro e n hnot hmth hmem
    obtain ⟨nm, np⟩ := n
    obtain ⟨jsonrpc, method, notification⟩ := e
    dsimp only at hnot hmth hmem
    subst hnot
    subst hmth
    by_cases hp : np = Json.null
    · subst hp
      simp [ClientJsonrpcNotification.serialize, Json.isNull,
        ClientJsonrpcNotification.deserialize, clientJsonrpcNotificationFields,
        Json.asStr, notificationFromClient_known_req_object _ _ hmem]
    · have hpn : np.isNull = false := by
        cases np <;> simp [Json.isNull] at hp ⊢
      simp [ClientJsonrpcNotification.serialize, hpn,
        ClientJsonrpcNotification.deserialize, clientJsonrpcNotificationFields,
        Json.asStr, notificationFromClient_known_req_object _ _ hmem]
  · intro e r hres hobj
    obtain ⟨rv⟩ := r
    obtain ⟨id, jsonrpc, result⟩ := e
    dsimp only at hres hobj
    subst hres
    simp [ClientJsonrpcResponse.serialize, ResultFromClient.serialize,
      ClientJsonrpcResponse.deserialize, clientJsonrpcResponseFields,
      requestId_fromJson_toJson, Json.asStr, ResultFromClient.deserialize,
      ClientResult.deserialize, hobj]
  · intro e hj
    obtain ⟨err, id, jsonrpc⟩ := e
    obtain ⟨code, data, message⟩ := err
    dsimp only at hj
    subst hj
    cases data <;>
      simp [JsonrpcError.serialize, RpcError.serialize, JsonrpcError.deserialize,
        Json.get, List.lookup, RpcError.fromJson, requestId_fromJson_toJson,
        const_str_validator, Json.asStr, JSONRPC_VERSION]

/-- Witness for envelope_roundtrip_known: concrete envelopes of each of the
four kinds with Known payloads round trip exactly. -/
theorem envelope_roundtrip_known_witness :
    ClientJsonrpcRequest.deserialize (ClientJsonrpcRequest.serialize
        (ClientJsonrpcRequest.mk (RequestId.integer 15) ("2.0") ("ping")
          (RequestFromClient.ClientRequest ⟨"ping", Json.null⟩)))
      = Except.ok (ClientJsonrpcRequest.mk (RequestId.integer 15) ("2.0") ("ping")
          (RequestFromClient.ClientRequest ⟨"ping", Json.null⟩))
    ∧ ClientJsonrpcNotification.deserialize (ClientJsonrpcNotification.serialize
        (ClientJsonrpcNotification.mk ("2.0") ("notifications/initialized")
          (NotificationFromClient.ClientNotification
            ⟨"notifications/initialized", Json.null⟩)))
      = Except.ok (ClientJsonrpcNotification.mk ("2.0") ("notifications/initialized")
          (NotificationFromClient.ClientNotification
            ⟨"notifications/initialized", Json.null⟩))
    ∧ ClientJsonrpcResponse.deserialize (ClientJsonrpcResponse.serialize
        (ClientJsonrpcResponse.mk (RequestId.integer 2) ("2.0")
          (ResultFromClient.ClientResult ⟨Json.obj []⟩)))
      = Except.ok (ClientJsonrpcResponse.mk (RequestId.integer 2) ("2.0")
          (ResultFromClient.ClientResult ⟨Json.obj []⟩))
    ∧ JsonrpcError.deserialize (JsonrpcError.serialize
        (JsonrpcError.mk RpcError.parse_error (RequestId.integer 3) ("2.0")))
      = Except.ok (JsonrpcError.mk RpcError.parse_error (RequestId.integer 3) ("2.0")) :=
  ⟨envelope_roundtrip_known.1
      (ClientJsonrpcRequest.mk (RequestId.integer 15) ("2.0") ("ping")
        (RequestFromClient.ClientRequest ⟨"ping", Json.null⟩))
      ⟨"ping", Json.null⟩ rfl rfl (by decide),
    envelope_roundtrip_known.2.1
      (ClientJsonrpcNotification.mk ("2.0") ("notifications/initialized")
        (NotificationFromClient.ClientNotification
          ⟨"notifications/initialized", Json.null⟩))
      ⟨"notifications/initialized", Json.null⟩ rfl rfl (by decide),
    envelope_roundtrip_known.2.2.1
      (ClientJsonrpcResponse.mk (RequestId.integer 2) ("2.0")
        (ResultFromClient.ClientResult ⟨Json.obj []⟩))
      ⟨Json.obj []⟩ rfl rfl,
    envelope_roundtrip_known.2.2.2
      (JsonrpcError.mk RpcError.parse_error (RequestId.integer 3) ("2.0")) rfl⟩

end McpSchema
